import Mathlib

/-!
Shallow embedding of `src/code/2.EPA_data_acquisition.ipynb` (the EPA AQS
acquisition notebook of the rapid-city-wildfire-smoke repository).

Modelling choices:
* The mutable request dictionary `AQS_REQUEST_TEMPLATE` becomes the structure
  `Template`; Python in-place mutation becomes explicit state passing: each
  request function returns the template it mutated, and a caller that omits
  `request_template` threads the module-level value through successive calls.
* Optional string arguments (`email_address = None`, ...) become
  `Option String`; Python truthiness of a string argument (`if email_address:`)
  is `truthyStr`: false exactly for `None` and for the empty string.
* The HTTP transport is an oracle `Option JsonDoc`: `none` models
  `requests.get` or `response.json()` raising; `some j` models a successfully
  parsed document `j`.  `JsonDoc` keeps the two pieces the notebook inspects:
  `Header[0].status` (field `status`) and the `aqi` field of each `Data`
  record (field `data`, one `Option ℚ` per daily record, `none` for null).
* Observable side effects (the throttle `time.sleep`, the `requests.get`
  attempt, the `print(e)` in the exception handler) are recorded in an
  `Effect` trace, in the order the statements execute.
* A raised `Exception` becomes `Except.error` carrying the name of the
  missing field the exception message reports.
* Python floats in the throttle constants are modelled as exact rationals.
-/

/-- From the source: `API_LATENCY_ASSUMED = 0.002` (seconds). -/
def API_LATENCY_ASSUMED : ℚ := 2 / 1000

/-- From the source: `API_THROTTLE_WAIT = (1.0/100.0)-API_LATENCY_ASSUMED`. -/
def API_THROTTLE_WAIT : ℚ := 1 / 100 - API_LATENCY_ASSUMED

/-- The request dictionary `AQS_REQUEST_TEMPLATE` of the notebook: string
parameters plus four bounding-box floats (modelled as rationals). -/
structure Template where
  email : String
  key : String
  state : String
  county : String
  begin_date : String
  end_date : String
  minlat : ℚ
  maxlat : ℚ
  minlon : ℚ
  maxlon : ℚ
  param : String
  pclass : String
deriving DecidableEq

/-- The module-level default value of the template: every string field empty,
every bounding-box field `0.0`. -/
def AQS_REQUEST_TEMPLATE : Template :=
  ⟨"", "", "", "", "", "", 0, 0, 0, 0, "", ""⟩

/-- A parsed API response: `Header[0].status` and the `aqi` field of each
`Data` record (`none` models JSON `null`). -/
structure JsonDoc where
  status : String
  data : List (Option ℚ)
deriving DecidableEq

/-- Observable side effects of one request function call, in program order. -/
inductive Effect where
  | sleep (seconds : ℚ)
  | netGet
  | printErr
deriving DecidableEq

/-- Decidable equality for `Except`, needed so outcomes can be compared on
concrete inputs. -/
def exceptDecEq {e a : Type} [DecidableEq e] [DecidableEq a] : DecidableEq (Except e a)
  | Except.error x, Except.error y =>
    if h : x = y then isTrue (by rw [h]) else isFalse (by intro hc; cases hc; exact h rfl)
  | Except.error _, Except.ok _ => isFalse (by intro hc; cases hc)
  | Except.ok _, Except.error _ => isFalse (by intro hc; cases hc)
  | Except.ok x, Except.ok y =>
    if h : x = y then isTrue (by rw [h]) else isFalse (by intro hc; cases hc; exact h rfl)

instance {e a : Type} [DecidableEq e] [DecidableEq a] : DecidableEq (Except e a) :=
  exceptDecEq

/-- Outcome of one request-function call: the (possibly mutated) template,
the returned value or raised exception, and the effect trace. -/
structure Outcome where
  tmpl : Template
  result : Except String (Option JsonDoc)
  effects : List Effect
deriving DecidableEq

/-- Python truthiness of an optional string argument: `if arg:` is taken
exactly when the argument is present and non-empty. -/
def truthyStr : Option String → Bool
  | none => false
  | some s => s ≠ ""

/-- The guard `if fips and len(fips)==5:` of `request_daily_summary`. -/
def fipsTruthyLen5 : Option String → Bool
  | none => false
  | some s => s ≠ "" && s.length == 5

/-- The argument-overlay prefix of `request_list_info`: explicit arguments
take precedence over what is already in the template. -/
def overlayList (email_address key : Option String) (t : Template) : Template :=
  let t1 := if truthyStr email_address then { t with email := email_address.getD "" } else t
  if truthyStr key then { t1 with key := key.getD "" } else t1

/-- The argument-overlay prefix of `request_daily_summary`: explicit
arguments take precedence, and a truthy 5-character `fips` is split into
`state = fips[:2]` and `county = fips[2:]`. -/
def overlayDaily (email_address key param begin_date end_date fips : Option String)
    (t : Template) : Template :=
  let t1 := if truthyStr email_address then { t with email := email_address.getD "" } else t
  let t2 := if truthyStr key then { t1 with key := key.getD "" } else t1
  let t3 := if truthyStr param then { t2 with param := param.getD "" } else t2
  let t4 := if truthyStr begin_date then { t3 with begin_date := begin_date.getD "" } else t3
  let t5 := if truthyStr end_date then { t4 with end_date := end_date.getD "" } else t4
  if fipsTruthyLen5 fips then
    { t5 with state := (fips.getD "").take 2, county := (fips.getD "").drop 2 }
  else t5

/-- The `try:`/`except:` body shared by both request functions: sleep the
throttle interval when it is positive, attempt the GET, and on a transport
or decode exception print it and return `None`. -/
def runRequest (transport : Option JsonDoc) : Option JsonDoc × List Effect :=
  let pre := if 0 < API_THROTTLE_WAIT then [Effect.sleep API_THROTTLE_WAIT] else []
  match transport with
  | some j => (some j, pre ++ [Effect.netGet])
  | none => (none, pre ++ [Effect.netGet, Effect.printErr])

/-- `request_list_info`: overlay the explicit arguments, validate email and
key (raising, with no effect yet, when one is empty), then perform the
throttled request. -/
def request_list_info (email_address key : Option String) (request_template : Template)
    (transport : Option JsonDoc) : Outcome :=
  let t := overlayList email_address key request_template
  if t.email = "" then ⟨t, Except.error "email", []⟩
  else if t.key = "" then ⟨t, Except.error "key", []⟩
  else
    let r := runRequest transport
    ⟨t, Except.ok r.1, r.2⟩

/-- `request_daily_summary`: overlay the explicit arguments (including the
FIPS split), validate the five always-required fields in source order,
then perform the throttled request.  FIPS fields are not validated. -/
def request_daily_summary (email_address key param begin_date end_date fips : Option String)
    (request_template : Template) (transport : Option JsonDoc) : Outcome :=
  let t := overlayDaily email_address key param begin_date end_date fips request_template
  if t.email = "" then ⟨t, Except.error "email", []⟩
  else if t.key = "" then ⟨t, Except.error "key", []⟩
  else if t.param = "" then ⟨t, Except.error "param", []⟩
  else if t.begin_date = "" then ⟨t, Except.error "begin_date", []⟩
  else if t.end_date = "" then ⟨t, Except.error "end_date", []⟩
  else
    let r := runRequest transport
    ⟨t, Except.ok r.1, r.2⟩

/-- The per-year collection loop of the aggregation cell:
`for day in req["Data"]: if "aqi" in list(data.keys()): if day['aqi'] != None:
aqis.append(day["aqi"])`.  The membership test reads the free variable
`data`, which is never assigned in that cell; its key set is therefore a
parameter `dataKeys` of the model. -/
def collectAqis (dataKeys : List String) : List (Option ℚ) → List ℚ
  | [] => []
  | day :: rest =>
    if "aqi" ∈ dataKeys then
      match day with
      | some v => v :: collectAqis dataKeys rest
      | none => collectAqis dataKeys rest
    else collectAqis dataKeys rest

/-- The per-year value the aggregation cell stores: `np.mean(aqis)` when the
collected list is non-empty, `None` otherwise. -/
def yearlyValue (dataKeys : List String) (records : List (Option ℚ)) : Option ℚ :=
  let aqis := collectAqis dataKeys records
  if 0 < aqis.length then some (aqis.sum / (aqis.length : ℚ)) else none

/-- Modelled from the spec wording only (for comparison with `yearlyValue`):
the arithmetic mean of exactly the non-null `aqi` fields of the records,
absent when every record is null. -/
def yearlyValueSpec (records : List (Option ℚ)) : Option ℚ :=
  let vals := records.filterMap id
  if 0 < vals.length then some (vals.sum / (vals.length : ℚ)) else none

/-- The persistence cell: `df = pd.DataFrame({'aqi': aqi, 'year': year});
df = df[df.aqi > 0]`.  A `None` yearly value becomes NaN in the float
column and fails `> 0`, so a row survives exactly when its value is present
and strictly positive. -/
def persistRows (rows : List (Int × Option ℚ)) : List (Int × ℚ) :=
  rows.filterMap (fun p =>
    match p.2 with
    | some m => if 0 < m then some (p.1, m) else none
    | none => none)

/-- Field-by-field characterization of the `request_list_info` overlay. -/
theorem overlayList_fields (e k : Option String) (t : Template) :
    overlayList e k t =
      { t with
        email := if truthyStr e then e.getD "" else t.email,
        key := if truthyStr k then k.getD "" else t.key } := by
  cases he : truthyStr e <;> cases hk : truthyStr k <;>
    simp [overlayList, he, hk]

/-- Field-by-field characterization of the `request_daily_summary` overlay. -/
theorem overlayDaily_fields (e k p b d f : Option String) (t : Template) :
    overlayDaily e k p b d f t =
      { t with
        email := if truthyStr e then e.getD "" else t.email,
        key := if truthyStr k then k.getD "" else t.key,
        param := if truthyStr p then p.getD "" else t.param,
        begin_date := if truthyStr b then b.getD "" else t.begin_date,
        end_date := if truthyStr d then d.getD "" else t.end_date,
        state := if fipsTruthyLen5 f then (f.getD "").take 2 else t.state,
        county := if fipsTruthyLen5 f then (f.getD "").drop 2 else t.county } := by
  cases he : truthyStr e <;> cases hk : truthyStr k <;> cases hp : truthyStr p <;>
    cases hb : truthyStr b <;> cases hd : truthyStr d <;> cases hf : fipsTruthyLen5 f <;>
    simp [overlayDaily, he, hk, hp, hb, hd, hf]

/-- A string of length 5 passes the `if fips and len(fips)==5:` guard. -/
theorem fipsTruthyLen5_of_length (s : String) (h5 : s.length = 5) :
    fipsTruthyLen5 (some s) = true := by
  have hne : s ≠ "" := by
    intro h
    rw [h] at h5
    simp at h5
  simp [fipsTruthyLen5, hne, h5]

/-- C1: the aggregation loop is meant to average exactly the non-null `aqi`
fields of the daily records, but its filter reads the free variable `data`
instead of the current record.  When the ambient `data` has an `"aqi"` key
the loop coincides with the specified mean, but with an ambient `data`
lacking that key (modelled by `dataKeys = []`) the records 5, null, 15
yield `None` where the claim requires `10.0`. -/
theorem c1_yearly_mean_data_bug :
    (∀ records : List (Option ℚ), yearlyValue ["aqi"] records = yearlyValueSpec records) ∧
    yearlyValue [] [some 5, none, some 15] = none ∧
    yearlyValueSpec [some 5, none, some 15] = some 10 := by
  refine ⟨?_, ?_, ?_⟩
  · intro records
    have h : ∀ r : List (Option ℚ), collectAqis ["aqi"] r = r.filterMap id := by
      intro r
      induction r with
      | nil => rfl
      | cons day rest ih => cases day <;> simp [collectAqis, ih]
    simp [yearlyValue, yearlyValueSpec, h]
  · simp [yearlyValue, collectAqis]
  · simp [yearlyValueSpec]
    norm_num

/-- C3: the sleep interval the code actually uses is
`1.0/100.0 - 0.002 = 0.008` seconds, which is NOT the `60/100 - 0.002`
seconds a ceiling of 100 requests per minute would give (the code comment
announces a 100-requests-per-minute limit); the interval is nonetheless
slept first on every request, before the GET, whether or not the transport
subsequently fails. -/
theorem c3_throttle_constant :
    API_THROTTLE_WAIT = 8 / 1000 ∧
    API_THROTTLE_WAIT ≠ 60 / 100 - API_LATENCY_ASSUMED ∧
    ∀ tr : Option JsonDoc, (runRequest tr).2.head? = some (Effect.sleep API_THROTTLE_WAIT) := by
  have hval : API_THROTTLE_WAIT = 8 / 1000 := by
    norm_num [API_THROTTLE_WAIT, API_LATENCY_ASSUMED]
  have hpos : 0 < API_THROTTLE_WAIT := by
    rw [hval]
    norm_num
  refine ⟨hval, by norm_num [API_THROTTLE_WAIT, API_LATENCY_ASSUMED], ?_⟩
  intro tr
  cases tr <;> simp [runRequest, hpos]

/-- C4: whenever `request_daily_summary` is given a FIPS string of length
exactly 5, the overlay writes the first 2 characters into the template's
`state` field and the remaining 3 into `county`. -/
theorem c4_fips_split (tmpl : Template) (e k p b d : Option String) (s : String)
    (h5 : s.length = 5) :
    (overlayDaily e k p b d (some s) tmpl).state = s.take 2 ∧
    (overlayDaily e k p b d (some s) tmpl).county = s.drop 2 := by
  have hf := fipsTruthyLen5_of_length s h5
  rw [overlayDaily_fields]
  simp [hf]

/-- C4 witness: the FIPS code `"46103"` splits into state `"46"` and
county `"103"`. -/
theorem c4_witness :
    (overlayDaily none none none none none (some "46103") AQS_REQUEST_TEMPLATE).state = "46" ∧
    (overlayDaily none none none none none (some "46103") AQS_REQUEST_TEMPLATE).county = "103" := by
  have h := c4_fips_split AQS_REQUEST_TEMPLATE none none none none none "46103" (by decide)
  exact ⟨h.1.trans (by decide), h.2.trans (by decide)⟩

/-- C2: with an empty merged email or key (and, for the daily-summary call,
empty merged param, begin_date or end_date), the client raises an exception
naming the missing field, with an empty effect trace: no sleep and no
network call has happened. -/
theorem c2_validation_before_io (tmpl : Template)
    (e k p b d f : Option String) (tr : Option JsonDoc) :
    ((overlayList e k tmpl).email = "" →
      request_list_info e k tmpl tr =
        ⟨overlayList e k tmpl, Except.error "email", []⟩) ∧
    ((overlayList e k tmpl).email ≠ "" → (overlayList e k tmpl).key = "" →
      request_list_info e k tmpl tr =
        ⟨overlayList e k tmpl, Except.error "key", []⟩) ∧
    ((overlayDaily e k p b d f tmpl).email = "" →
      request_daily_summary e k p b d f tmpl tr =
        ⟨overlayDaily e k p b d f tmpl, Except.error "email", []⟩) ∧
    ((overlayDaily e k p b d f tmpl).email ≠ "" →
      (overlayDaily e k p b d f tmpl).key = "" →
      request_daily_summary e k p b d f tmpl tr =
        ⟨overlayDaily e k p b d f tmpl, Except.error "key", []⟩) ∧
    ((overlayDaily e k p b d f tmpl).email ≠ "" →
      (overlayDaily e k p b d f tmpl).key ≠ "" →
      (overlayDaily e k p b d f tmpl).param = "" →
      request_daily_summary e k p b d f tmpl tr =
        ⟨overlayDaily e k p b d f tmpl, Except.error "param", []⟩) ∧
    ((overlayDaily e k p b d f tmpl).email ≠ "" →
      (overlayDaily e k p b d f tmpl).key ≠ "" →
      (overlayDaily e k p b d f tmpl).param ≠ "" →
      (overlayDaily e k p b d f tmpl).begin_date = "" →
      request_daily_summary e k p b d f tmpl tr =
        ⟨overlayDaily e k p b d f tmpl, Except.error "begin_date", []⟩) ∧
    ((overlayDaily e k p b d f tmpl).email ≠ "" →
      (overlayDaily e k p b d f tmpl).key ≠ "" →
      (overlayDaily e k p b d f tmpl).param ≠ "" →
      (overlayDaily e k p b d f tmpl).begin_date ≠ "" →
      (overlayDaily e k p b d f tmpl).end_date = "" →
      request_daily_summary e k p b d f tmpl tr =
        ⟨overlayDaily e k p b d f tmpl, Except.error "end_date", []⟩) := by
  refine ⟨?_, ?_, ?_, ?_, ?_, ?_, ?_⟩ <;>
    intros <;>
    simp [request_list_info, request_daily_summary, *]

/-- C2 witness: calling with everything empty raises naming `email` with no
effects; calling daily-summary with only email and key raises naming
`param` with no effects. -/
theorem c2_witness :
    request_list_info none none AQS_REQUEST_TEMPLATE none =
      ⟨AQS_REQUEST_TEMPLATE, Except.error "email", []⟩ ∧
    request_daily_summary (some "a@b") (some "k1") none none none none AQS_REQUEST_TEMPLATE none =
      ⟨overlayDaily (some "a@b") (some "k1") none none none none AQS_REQUEST_TEMPLATE,
        Except.error "param", []⟩ := by
  have h1 := c2_validation_before_io AQS_REQUEST_TEMPLATE none none none none none none none
  have h2 := c2_validation_before_io AQS_REQUEST_TEMPLATE (some "a@b") (some "k1")
    none none none none none
  exact ⟨h1.1 (by decide), h2.2.2.2.2.1 (by decide) (by decide) (by decide)⟩

/-- C5: when the GET or the JSON decode raises (transport `none`), both
request functions catch the exception, print it, and return `None`; the
trace shows exactly one network attempt, so there is no retry. -/
theorem c5_exception_caught_null (tmpl : Template) (e k p b d f : Option String)
    (hLe : (overlayList e k tmpl).email ≠ "")
    (hLk : (overlayList e k tmpl).key ≠ "")
    (hDe : (overlayDaily e k p b d f tmpl).email ≠ "")
    (hDk : (overlayDaily e k p b d f tmpl).key ≠ "")
    (hDp : (overlayDaily e k p b d f tmpl).param ≠ "")
    (hDb : (overlayDaily e k p b d f tmpl).begin_date ≠ "")
    (hDd : (overlayDaily e k p b d f tmpl).end_date ≠ "") :
    request_list_info e k tmpl none =
      ⟨overlayList e k tmpl, Except.ok none,
        [Effect.sleep API_THROTTLE_WAIT, Effect.netGet, Effect.printErr]⟩ ∧
    request_daily_summary e k p b d f tmpl none =
      ⟨overlayDaily e k p b d f tmpl, Except.ok none,
        [Effect.sleep API_THROTTLE_WAIT, Effect.netGet, Effect.printErr]⟩ := by
  have hpos : 0 < API_THROTTLE_WAIT := by
    norm_num [API_THROTTLE_WAIT, API_LATENCY_ASSUMED]
  constructor <;>
    simp [request_list_info, request_daily_summary, runRequest, hpos,
      hLe, hLk, hDe, hDk, hDp, hDb, hDd]

/-- C5 witness: a failing transport on fully supplied calls yields `None`
after one sleep, one GET attempt and one print, for both functions. -/
theorem c5_witness :
    request_list_info (some "a@b") (some "k1") AQS_REQUEST_TEMPLATE none =
      ⟨overlayList (some "a@b") (some "k1") AQS_REQUEST_TEMPLATE, Except.ok none,
        [Effect.sleep API_THROTTLE_WAIT, Effect.netGet, Effect.printErr]⟩ ∧
    request_daily_summary (some "a@b") (some "k1") (some "81102")
        (some "19850501") (some "19851031") none AQS_REQUEST_TEMPLATE none =
      ⟨overlayDaily (some "a@b") (some "k1") (some "81102")
          (some "19850501") (some "19851031") none AQS_REQUEST_TEMPLATE, Except.ok none,
        [Effect.sleep API_THROTTLE_WAIT, Effect.netGet, Effect.printErr]⟩ :=
  c5_exception_caught_null AQS_REQUEST_TEMPLATE (some "a@b") (some "k1") (some "81102")
    (some "19850501") (some "19851031") none
    (by decide) (by decide) (by decide) (by decide) (by decide) (by decide) (by decide)

/-- C6: a well-formed response whose `Header[0].status` is not `"Success"`
is neither raised nor nulled: both functions return the parsed document
unchanged (they never inspect the status field). -/
theorem c6_status_passthrough (tmpl : Template) (e k p b d f : Option String) (j : JsonDoc)
    (hLe : (overlayList e k tmpl).email ≠ "")
    (hLk : (overlayList e k tmpl).key ≠ "")
    (hDe : (overlayDaily e k p b d f tmpl).email ≠ "")
    (hDk : (overlayDaily e k p b d f tmpl).key ≠ "")
    (hDp : (overlayDaily e k p b d f tmpl).param ≠ "")
    (hDb : (overlayDaily e k p b d f tmpl).begin_date ≠ "")
    (hDd : (overlayDaily e k p b d f tmpl).end_date ≠ "")
    (_hstatus : j.status ≠ "Success") :
    request_list_info e k tmpl (some j) =
      ⟨overlayList e k tmpl, Except.ok (some j),
        [Effect.sleep API_THROTTLE_WAIT, Effect.netGet]⟩ ∧
    request_daily_summary e k p b d f tmpl (some j) =
      ⟨overlayDaily e k p b d f tmpl, Except.ok (some j),
        [Effect.sleep API_THROTTLE_WAIT, Effect.netGet]⟩ := by
  have hpos : 0 < API_THROTTLE_WAIT := by
    norm_num [API_THROTTLE_WAIT, API_LATENCY_ASSUMED]
  constructor <;>
    simp [request_list_info, request_daily_summary, runRequest, hpos,
      hLe, hLk, hDe, hDk, hDp, hDb, hDd]

/-- C6 witness: a response with status `"Failed"` is returned unchanged by
both functions. -/
theorem c6_witness :
    request_list_info (some "a@b") (some "k1") AQS_REQUEST_TEMPLATE (some ⟨"Failed", []⟩) =
      ⟨overlayList (some "a@b") (some "k1") AQS_REQUEST_TEMPLATE,
        Except.ok (some ⟨"Failed", []⟩),
        [Effect.sleep API_THROTTLE_WAIT, Effect.netGet]⟩ ∧
    request_daily_summary (some "a@b") (some "k1") (some "81102")
        (some "19850501") (some "19851031") none AQS_REQUEST_TEMPLATE (some ⟨"Failed", []⟩) =
      ⟨overlayDaily (some "a@b") (some "k1") (some "81102")
          (some "19850501") (some "19851031") none AQS_REQUEST_TEMPLATE,
        Except.ok (some ⟨"Failed", []⟩),
        [Effect.sleep API_THROTTLE_WAIT, Effect.netGet]⟩ :=
  c6_status_passthrough AQS_REQUEST_TEMPLATE (some "a@b") (some "k1") (some "81102")
    (some "19850501") (some "19851031") none ⟨"Failed", []⟩
    (by decide) (by decide) (by decide) (by decide) (by decide) (by decide) (by decide)
    (by decide)

/-- C7: each request function overwrites only the template fields for which
the caller passed an explicit truthy argument (plus `state`/`county` for a
truthy 5-character FIPS); every other field keeps its prior value, and the
bounding-box and `pclass` fields are never touched by either overlay. -/
theorem c7_frame (tmpl : Template) (e k p b d f : Option String) :
    (truthyStr e = false →
      (overlayList e k tmpl).email = tmpl.email ∧
      (overlayDaily e k p b d f tmpl).email = tmpl.email) ∧
    (truthyStr k = false →
      (overlayList e k tmpl).key = tmpl.key ∧
      (overlayDaily e k p b d f tmpl).key = tmpl.key) ∧
    (truthyStr p = false → (overlayDaily e k p b d f tmpl).param = tmpl.param) ∧
    (truthyStr b = false → (overlayDaily e k p b d f tmpl).begin_date = tmpl.begin_date) ∧
    (truthyStr d = false → (overlayDaily e k p b d f tmpl).end_date = tmpl.end_date) ∧
    (fipsTruthyLen5 f = false →
      (overlayDaily e k p b d f tmpl).state = tmpl.state ∧
      (overlayDaily e k p b d f tmpl).county = tmpl.county) ∧
    ((overlayList e k tmpl).state = tmpl.state ∧
     (overlayList e k tmpl).county = tmpl.county ∧
     (overlayList e k tmpl).begin_date = tmpl.begin_date ∧
     (overlayList e k tmpl).end_date = tmpl.end_date ∧
     (overlayList e k tmpl).param = tmpl.param ∧
     (overlayList e k tmpl).pclass = tmpl.pclass ∧
     (overlayList e k tmpl).minlat = tmpl.minlat ∧
     (overlayList e k tmpl).maxlat = tmpl.maxlat ∧
     (overlayList e k tmpl).minlon = tmpl.minlon ∧
     (overlayList e k tmpl).maxlon = tmpl.maxlon) ∧
    ((overlayDaily e k p b d f tmpl).pclass = tmpl.pclass ∧
     (overlayDaily e k p b d f tmpl).minlat = tmpl.minlat ∧
     (overlayDaily e k p b d f tmpl).maxlat = tmpl.maxlat ∧
     (overlayDaily e k p b d f tmpl).minlon = tmpl.minlon ∧
     (overlayDaily e k p b d f tmpl).maxlon = tmpl.maxlon) := by
  simp only [overlayList_fields, overlayDaily_fields]
  refine ⟨?_, ?_, ?_, ?_, ?_, ?_, ?_, ?_⟩ <;> intros <;> simp_all

/-- C7 witness: with no FIPS argument, the daily-summary overlay leaves
`state` and `county` untouched on the default template. -/
theorem c7_witness :
    (overlayDaily none none none none none none AQS_REQUEST_TEMPLATE).state
        = AQS_REQUEST_TEMPLATE.state ∧
    (overlayDaily none none none none none none AQS_REQUEST_TEMPLATE).county
        = AQS_REQUEST_TEMPLATE.county :=
  (c7_frame AQS_REQUEST_TEMPLATE none none none none none none).2.2.2.2.2.1 rfl

/-- The year column of the persisted rows is a sublist of the input year
column. -/
theorem persistRows_fst_sublist (rows : List (Int × Option ℚ)) :
    ((persistRows rows).map Prod.fst).Sublist (rows.map Prod.fst) := by
  induction rows with
  | nil => simp [persistRows]
  | cons r rest ih =>
    obtain ⟨y, v⟩ := r
    cases v with
    | none =>
      simpa [persistRows, List.filterMap_cons] using ih.cons y
    | some m =>
      by_cases hm : 0 < m
      · simpa [persistRows, List.filterMap_cons, hm] using ih.cons₂ y
      · simpa [persistRows, List.filterMap_cons, hm] using ih.cons y

/-- A row survives the `df[df.aqi > 0]` filter exactly when its value is
present and strictly positive. -/
theorem persistRows_mem (rows : List (Int × Option ℚ)) (y : Int) (m : ℚ) :
    (y, m) ∈ persistRows rows ↔ ((y, some m) ∈ rows ∧ 0 < m) := by
  constructor
  · intro h
    simp only [persistRows] at h
    rcases List.mem_filterMap.mp h with ⟨⟨y1, v⟩, hmem, hf⟩
    cases v with
    | none => simp at hf
    | some m1 =>
      by_cases hm : 0 < m1
      · simp [hm] at hf
        obtain ⟨hy, hmm⟩ := hf
        subst hy
        subst hmm
        exact ⟨hmem, hm⟩
      · simp [hm] at hf
  · rintro ⟨hmem, hm⟩
    simp only [persistRows]
    exact List.mem_filterMap.mpr ⟨(y, some m), hmem, by simp [hm]⟩

/-- C8 amended: the persisted output has exactly one row for every year
whose yearly value is present AND strictly positive, and no row otherwise;
in particular a year whose non-null observations average to zero is
dropped. -/
theorem c8_positive_mean_rows (rows : List (Int × Option ℚ))
    (hnodup : (rows.map Prod.fst).Nodup) :
    ((persistRows rows).map Prod.fst).Nodup ∧
    ∀ y m, (y, m) ∈ persistRows rows ↔ ((y, some m) ∈ rows ∧ 0 < m) :=
  ⟨hnodup.sublist (persistRows_fst_sublist rows), fun y m => persistRows_mem rows y m⟩

/-- C8 witness: on three concrete years the persisted year column stays
duplicate-free. -/
theorem c8_witness :
    ((persistRows [(1963, some 12), (1964, none), (1965, some 0)]).map Prod.fst).Nodup :=
  (c8_positive_mean_rows [(1963, some 12), (1964, none), (1965, some 0)] (by decide)).1

/-- C8 counterexample: a year whose single record has a non-null `aqi` of 0
gets a yearly value of 0, which the `> 0` filter drops, so the persisted
output has NO row for that year although it had a non-null observation. -/
theorem c8_counterexample :
    yearlyValue ["aqi"] [some 0] = some 0 ∧
    persistRows [(1963, yearlyValue ["aqi"] [some 0])] = [] := by
  constructor
  · simp [yearlyValue, collectAqis]
  · simp [persistRows, yearlyValue, collectAqis]

/-- C9: a FIPS argument whose length is not 5 is silently ignored: the call
behaves exactly as if no FIPS had been passed, and `state`/`county` keep
their prior values; no exception arises from the FIPS value. -/
theorem c9_fips_ignored (tmpl : Template) (e k p b d : Option String) (s : String)
    (tr : Option JsonDoc) (hs : s.length ≠ 5) :
    request_daily_summary e k p b d (some s) tmpl tr =
      request_daily_summary e k p b d none tmpl tr ∧
    (overlayDaily e k p b d (some s) tmpl).state = tmpl.state ∧
    (overlayDaily e k p b d (some s) tmpl).county = tmpl.county := by
  have hf : fipsTruthyLen5 (some s) = false := by
    simp [fipsTruthyLen5, hs]
  have hfn : fipsTruthyLen5 (none : Option String) = false := rfl
  have hover : overlayDaily e k p b d (some s) tmpl = overlayDaily e k p b d none tmpl := by
    rw [overlayDaily_fields, overlayDaily_fields]
    simp [hf, hfn]
  refine ⟨?_, ?_, ?_⟩
  · simp [request_daily_summary, hover]
  · rw [overlayDaily_fields]
    simp [hf]
  · rw [overlayDaily_fields]
    simp [hf]

/-- C9 witness: the 3-character FIPS `"123"` is ignored by the
daily-summary call on the default template. -/
theorem c9_witness :
    request_daily_summary none none none none none (some "123") AQS_REQUEST_TEMPLATE none =
      request_daily_summary none none none none none none AQS_REQUEST_TEMPLATE none ∧
    (overlayDaily none none none none none (some "123") AQS_REQUEST_TEMPLATE).state
        = AQS_REQUEST_TEMPLATE.state ∧
    (overlayDaily none none none none none (some "123") AQS_REQUEST_TEMPLATE).county
        = AQS_REQUEST_TEMPLATE.county :=
  c9_fips_ignored AQS_REQUEST_TEMPLATE none none none none none "123" none (by decide)

/-- Whatever branch is taken, the template a `request_list_info` call
leaves behind is the merged one. -/
theorem request_list_info_tmpl (e k : Option String) (t : Template) (tr : Option JsonDoc) :
    (request_list_info e k t tr).tmpl = overlayList e k t := by
  simp only [request_list_info]
  repeat' split
  all_goals rfl

/-- With non-empty merged email and key, a daily-summary call can fail
validation only on `param`, `begin_date` or `end_date`. -/
theorem request_daily_summary_not_email_key (e k p b d f : Option String) (t : Template)
    (tr : Option JsonDoc)
    (hemail : ¬ (overlayDaily e k p b d f t).email = "")
    (hkey : ¬ (overlayDaily e k p b d f t).key = "") :
    (request_daily_summary e k p b d f t tr).result ≠ Except.error "email" ∧
    (request_daily_summary e k p b d f t tr).result ≠ Except.error "key" := by
  simp only [request_daily_summary]
  rw [if_neg hemail, if_neg hkey]
  constructor <;> (repeat' split) <;> simp

/-- C10: both request functions default to, and mutate, the single shared
request template; modelled by threading the template a call leaves behind
into the next call that also omits `request_template`.  Credentials written
by a `request_list_info` call persist in that template and are visible to
a subsequent `request_daily_summary` call that passes no credentials: its
merged template still carries them and it cannot fail the email or key
validation. -/
theorem c10_shared_default_template (g : Template) (e k : String) (p b d f : Option String)
    (tr1 tr2 : Option JsonDoc) (he : e ≠ "") (hk : k ≠ "") :
    (request_list_info (some e) (some k) g tr1).tmpl.email = e ∧
    (request_list_info (some e) (some k) g tr1).tmpl.key = k ∧
    (overlayDaily none none p b d f ((request_list_info (some e) (some k) g tr1).tmpl)).email
        = e ∧
    (overlayDaily none none p b d f ((request_list_info (some e) (some k) g tr1).tmpl)).key
        = k ∧
    (request_daily_summary none none p b d f
        ((request_list_info (some e) (some k) g tr1).tmpl) tr2).result ≠ Except.error "email" ∧
    (request_daily_summary none none p b d f
        ((request_list_info (some e) (some k) g tr1).tmpl) tr2).result ≠ Except.error "key" := by
  have htL := request_list_info_tmpl (some e) (some k) g tr1
  have hemail : (overlayList (some e) (some k) g).email = e := by
    simp [overlayList_fields, truthyStr, he]
  have hkey : (overlayList (some e) (some k) g).key = k := by
    simp [overlayList_fields, truthyStr, hk]
  have hDemail :
      (overlayDaily none none p b d f (overlayList (some e) (some k) g)).email = e := by
    simp [overlayDaily_fields, truthyStr, hemail]
  have hDkey :
      (overlayDaily none none p b d f (overlayList (some e) (some k) g)).key = k := by
    simp [overlayDaily_fields, truthyStr, hkey]
  have hne := request_daily_summary_not_email_key none none p b d f
    (overlayList (some e) (some k) g) tr2
    (by rw [hDemail]; exact he) (by rw [hDkey]; exact hk)
  rw [htL]
  exact ⟨hemail, hkey, hDemail, hDkey, hne.1, hne.2⟩

/-- C10 witness: after a list call supplying concrete credentials, a daily
call omitting them still sees them in the shared template and cannot raise
for email or key. -/
theorem c10_witness :
    (request_list_info (some "a@b") (some "k1") AQS_REQUEST_TEMPLATE none).tmpl.email
        = "a@b" ∧
    (request_list_info (some "a@b") (some "k1") AQS_REQUEST_TEMPLATE none).tmpl.key = "k1" ∧
    (overlayDaily none none none none none none
        ((request_list_info (some "a@b") (some "k1") AQS_REQUEST_TEMPLATE none).tmpl)).email
        = "a@b" ∧
    (overlayDaily none none none none none none
        ((request_list_info (some "a@b") (some "k1") AQS_REQUEST_TEMPLATE none).tmpl)).key
        = "k1" ∧
    (request_daily_summary none none none none none none
        ((request_list_info (some "a@b") (some "k1") AQS_REQUEST_TEMPLATE none).tmpl)
        none).result ≠ Except.error "email" ∧
    (request_daily_summary none none none none none none
        ((request_list_info (some "a@b") (some "k1") AQS_REQUEST_TEMPLATE none).tmpl)
        none).result ≠ Except.error "key" :=
  c10_shared_default_template AQS_REQUEST_TEMPLATE "a@b" "k1" none none none none none none
    (by decide) (by decide)
